import Mathlib

/-!
Shallow embedding of `src/whisper-srt/main.py` (a Flask service that
transcribes audio via a Whisper pipeline and encodes the timed transcript
as SRT subtitle text), together with theorems checking the specification's
claims against it.

Modelling conventions:
* Python floats holding second offsets are modelled as exact rationals `ℚ`
  (every concrete value appearing in the claims is exactly representable
  as a binary float, so no rounding is lost in this translation).
* `datetime.timedelta(seconds=s)` stores an integer number of microseconds,
  obtained by rounding `s * 10^6` half-to-even; we model the stored value
  as `ℤ` microseconds.
* Python's `//` and `%` on numbers are floor division and floor modulus
  (`Int.fdiv` / `Int.fmod` on integers, explicit floors on rationals);
  `int(x)` truncates toward zero.
* The in-memory `tasks` dictionary is a map `String → Option Task`; the
  presence of the `'result'` key in a task dict is an `Option String`
  field of `Task`.
* The interleaving of the background thread `process_audio_task` with the
  polling endpoint is modelled by a small-step relation in which each
  Python assignment statement is one atomic step (CPython's GIL makes a
  single dict write atomic, but a thread switch may occur between two
  statements).
-/

/-- Python `int(x)` on a real value: truncation toward zero. -/
def pyInt (q : ℚ) : ℤ := if q < 0 then ⌈q⌉ else ⌊q⌋

/-- Rounding half-to-even to an integer, as used by CPython when
normalising a fractional `timedelta(seconds=...)` argument to whole
microseconds. -/
def roundHalfEven (q : ℚ) : ℤ :=
  let f : ℤ := ⌊q⌋
  let r : ℚ := q - (f : ℚ)
  if r < 1/2 then f
  else if 1/2 < r then f + 1
  else if f % 2 = 0 then f else f + 1

/-- Left-pad a string with the character `'0'` to width `w`. -/
def zfill (w : Nat) (s : String) : String :=
  if s.length < w then String.mk (List.replicate (w - s.length) '0') ++ s else s

/-- Python's format spec `f"{n:0wd}"`: minimum field width `w`, zero
padding inserted between an optional minus sign and the digits, the sign
counted in the width. -/
def pyFormat0d (w : Nat) (n : ℤ) : String :=
  if n < 0 then "-" ++ zfill (w - 1) (Nat.repr n.natAbs)
  else zfill w (Nat.repr n.natAbs)

/-- Python float floor division `a // b` (the result is a whole-valued
float). -/
def pyFloorDivQ (a b : ℚ) : ℚ := ((⌊a / b⌋ : ℤ) : ℚ)

/-- Python float modulus `a % b` (result has the sign of the divisor):
`a - b * (a // b)`. -/
def pyModQ (a b : ℚ) : ℚ := a - b * ((⌊a / b⌋ : ℤ) : ℚ)

/-- Python `str.strip()`: drop leading and trailing whitespace
characters.  (Python strips Unicode whitespace; the recognised text in
this code is ASCII, where `Char.isWhitespace` agrees.) -/
def pyStrip (s : String) : String :=
  String.mk (((s.data.dropWhile Char.isWhitespace).reverse.dropWhile Char.isWhitespace).reverse)

/-- The whole number of microseconds stored by
`datetime.timedelta(seconds=s)`: `s * 10^6` rounded half-to-even. -/
def timedelta_of_seconds (s : ℚ) : ℤ := roundHalfEven (s * 1000000)

/-- Exact value of `timedelta.total_seconds()` for a delta of `m`
microseconds. -/
def timedelta_total_seconds (m : ℤ) : ℚ := (m : ℚ) / 1000000

/-- The `timedelta.microseconds` attribute: the sub-second microsecond
component after CPython's normalisation into days, seconds and
microseconds, always in `[0, 10^6)`. -/
def timedelta_microseconds (m : ℤ) : ℤ := Int.fmod m 1000000

/-- One transcription chunk of `output['chunks']` (main.py line 48): the
pair `chunk['timestamp'] = (start_seconds, end_seconds)` where either
bound may be `None`, and the raw text `chunk['text']`. -/
structure Chunk where
  start_seconds : Option ℚ
  end_seconds : Option ℚ
  text : String

/-- The timestamp format of main.py lines 56-57 applied to a timedelta of
`m` microseconds, reading `ts` for `total_seconds()`:
`f"\x7bint(ts) // 3600:02d\x7d:\x7bint(ts // 60) % 60:02d\x7d:\x7bint(ts % 60):02d\x7d,\x7btd.microseconds // 1000:03d\x7d"`. -/
def srt_timestamp (m : ℤ) : String :=
  let ts : ℚ := timedelta_total_seconds m
  pyFormat0d 2 (Int.fdiv (pyInt ts) 3600) ++ ":" ++
  pyFormat0d 2 (Int.fmod (pyInt (pyFloorDivQ ts 60)) 60) ++ ":" ++
  pyFormat0d 2 (pyInt (pyModQ ts 60)) ++ "," ++
  pyFormat0d 3 (Int.fdiv (timedelta_microseconds m) 1000)

/-- One loop iteration's contribution to `srt_content` (main.py lines
48-61): `f"\x7bsegment_id\x7d\n\x7bstartTime\x7d --> \x7bendTime\x7d\n\x7btext\x7d\n\n"`,
where `start_seconds or 0` maps a `None` timestamp to 0 and
`chunk['text']` is stripped of surrounding whitespace. -/
def srt_block (segment_id : Nat) (chunk : Chunk) : String :=
  Nat.repr segment_id ++ "\n" ++
  srt_timestamp (timedelta_of_seconds (chunk.start_seconds.getD 0)) ++ " --> " ++
  srt_timestamp (timedelta_of_seconds (chunk.end_seconds.getD 0)) ++ "\n" ++
  pyStrip chunk.text ++ "\n\n"

/-- The accumulation loop of `generate_srt` (main.py lines 45-61):
`srt_content` starts empty, `segment_id` starts at 1 and is incremented
once per chunk, each iteration appending one block. -/
def generate_srt_loop : Nat → List Chunk → String
  | _, [] => ""
  | segment_id, chunk :: chunks =>
      srt_block segment_id chunk ++ generate_srt_loop (segment_id + 1) chunks

/-- The SRT encoding performed by `generate_srt` (main.py lines 45-63) on
the chunk list returned by the transcription pipeline. -/
def generate_srt (chunks : List Chunk) : String := generate_srt_loop 1 chunks

/-- Full result of `generate_srt` including its `try`/`except`: when the
pipeline call raises (modelled as `none`), the function returns `None`;
otherwise it returns the encoded string. -/
def generate_srt_of_output (output : Option (List Chunk)) : Option String :=
  output.map generate_srt

/-! ### Bridge lemmas: eliminating the rational arithmetic

`srt_timestamp` computes with the exact rational `total_seconds()` value;
the following lemmas restate each field as pure integer arithmetic on the
microsecond count, so that concrete outputs can be evaluated and the
general field structure can be analysed. -/

theorem floor_cast_div_million (m : ℤ) : ⌊(m : ℚ) / 1000000⌋ = m / 1000000 := by
  have := Rat.floor_intCast_div_natCast m 1000000
  push_cast at this
  convert this using 2

theorem ts_div60 (m : ℤ) : ((m : ℚ) / 1000000) / 60 = (m : ℚ) / 60000000 := by ring

theorem floor_cast_div_60M (m : ℤ) : ⌊(m : ℚ) / 60000000⌋ = m / 60000000 := by
  have := Rat.floor_intCast_div_natCast m 60000000
  push_cast at this
  convert this using 2

/-- The hours operand: `int(total_seconds())` truncates toward zero. -/
theorem pyInt_trunc (m : ℤ) :
    pyInt ((m : ℚ) / 1000000) = if m < 0 then -((-m) / 1000000) else m / 1000000 := by
  unfold pyInt
  rcases lt_or_le m 0 with hm | hm
  · have h1 : (-((m : ℚ) / 1000000)) = ((-m : ℤ) : ℚ) / 1000000 := by push_cast; ring
    have h2 := Int.floor_neg (α := ℚ) (a := (m : ℚ) / 1000000)
    rw [h1, floor_cast_div_million] at h2
    rw [if_pos, if_pos hm]
    · omega
    · apply div_neg_of_neg_of_pos
      · exact_mod_cast hm
      · norm_num
  · rw [if_neg, if_neg (not_lt.mpr hm)]
    · exact floor_cast_div_million m
    · rw [not_lt]
      positivity

/-- The minutes operand: `int(total_seconds() // 60)`. -/
theorem pyInt_pyFloorDiv (m : ℤ) :
    pyInt (pyFloorDivQ ((m : ℚ) / 1000000) 60) = m / 60000000 := by
  unfold pyInt pyFloorDivQ
  rw [ts_div60, floor_cast_div_60M]
  split
  · exact Int.ceil_intCast _
  · exact Int.floor_intCast _

/-- The seconds operand: `int(total_seconds() % 60)`. -/
theorem pyInt_pyMod (m : ℤ) :
    pyInt (pyModQ ((m : ℚ) / 1000000) 60) = (m / 1000000) % 60 := by
  unfold pyInt pyModQ
  rw [ts_div60, floor_cast_div_60M]
  have hx : (m : ℚ) / 1000000 - 60 * ((m / 60000000 : ℤ) : ℚ)
      = (m : ℚ) / 1000000 - (((60 * (m / 60000000) : ℤ)) : ℚ) := by
    push_cast
    ring
  rw [hx]
  have h0 : (0 : ℚ) ≤ (m : ℚ) / 1000000 - ((60 * (m / 60000000) : ℤ) : ℚ) := by
    rw [sub_nonneg]
    have : ((60 * (m / 60000000) : ℤ) : ℚ) ≤ ((m / 1000000 : ℤ) : ℚ) := by
      have h1 : 60 * (m / 60000000) ≤ m / 1000000 := by omega
      exact_mod_cast h1
    calc ((60 * (m / 60000000) : ℤ) : ℚ) ≤ ((m / 1000000 : ℤ) : ℚ) := this
      _ ≤ (m : ℚ) / 1000000 := by
        rw [← floor_cast_div_million m]
        exact Int.floor_le _
  rw [if_neg (not_lt.mpr h0), Int.floor_sub_int, floor_cast_div_million]
  omega

/-- Integer form of the whole timestamp string of main.py lines 56-57. -/
theorem srt_timestamp_eq (m : ℤ) :
    srt_timestamp m =
      pyFormat0d 2 (Int.fdiv (if m < 0 then -((-m) / 1000000) else m / 1000000) 3600) ++ ":" ++
      pyFormat0d 2 (Int.fmod (m / 60000000) 60) ++ ":" ++
      pyFormat0d 2 ((m / 1000000) % 60) ++ "," ++
      pyFormat0d 3 (Int.fdiv (Int.fmod m 1000000) 1000) := by
  simp only [srt_timestamp, timedelta_total_seconds, timedelta_microseconds]
  rw [pyInt_trunc, pyInt_pyFloorDiv, pyInt_pyMod]

/-! ### Concrete timedelta conversions used by the claims -/

theorem timedelta_zero : timedelta_of_seconds 0 = 0 := by
  simp only [timedelta_of_seconds, roundHalfEven]
  norm_num

theorem timedelta_five : timedelta_of_seconds 5 = 5000000 := by
  simp only [timedelta_of_seconds, roundHalfEven]
  norm_num

theorem timedelta_29_4 : timedelta_of_seconds (29/4) = 7250000 := by
  simp only [timedelta_of_seconds, roundHalfEven]
  norm_num

theorem timedelta_3661 : timedelta_of_seconds 3661 = 3661000000 := by
  simp only [timedelta_of_seconds, roundHalfEven]
  norm_num

theorem timedelta_neg32 : timedelta_of_seconds (-3/2) = -1500000 := by
  simp only [timedelta_of_seconds, roundHalfEven]
  norm_num

theorem timedelta_neg2 : timedelta_of_seconds (-2) = -2000000 := by
  simp only [timedelta_of_seconds, roundHalfEven]
  norm_num

/-! ### Structure of the emitted text -/

/-- Concatenation of a list of strings in order. -/
def concatStrings : List String → String
  | [] => ""
  | s :: l => s ++ concatStrings l

theorem generate_srt_loop_eq_blocks (chunks : List Chunk) : ∀ n : Nat,
    generate_srt_loop n chunks =
      concatStrings ((chunks.enumFrom n).map fun p => srt_block p.1 p.2) := by
  induction chunks with
  | nil => intro n; rfl
  | cons c cs ih =>
    intro n
    simp only [generate_srt_loop, List.enumFrom, List.map_cons, concatStrings]
    rw [ih (n + 1)]

theorem generate_srt_eq_blocks (chunks : List Chunk) :
    generate_srt chunks =
      concatStrings ((chunks.enumFrom 1).map fun p => srt_block p.1 p.2) :=
  generate_srt_loop_eq_blocks chunks 1

theorem generate_srt_loop_congr_mid (c c' : Chunk)
    (hb : ∀ i, srt_block i c = srt_block i c') :
    ∀ (l1 l2 : List Chunk) (n : Nat),
    generate_srt_loop n (l1 ++ c :: l2) = generate_srt_loop n (l1 ++ c' :: l2) := by
  intro l1
  induction l1 with
  | nil =>
    intro l2 n
    simp only [List.nil_append, generate_srt_loop, hb]
  | cons d ds ih =>
    intro l2 n
    show srt_block n d ++ generate_srt_loop (n + 1) (ds ++ c :: l2) =
      srt_block n d ++ generate_srt_loop (n + 1) (ds ++ c' :: l2)
    rw [ih]

/-- Claim C2: `Encode` applied to the single segment
`start=5.0, end=7.25, text="  hello  "` yields exactly the string
`1\n00:00:05,000 --> 00:00:07,250\nhello\n\n`: the sequence number 1, the
timestamp line with millisecond precision, the whitespace-trimmed text,
and a trailing blank line.  (`29/4` is the exact value of the float
`7.25`.) -/
theorem claim_C2_encode_single_segment :
    generate_srt [⟨some 5, some (29/4), "  hello  "⟩] =
      "1\n00:00:05,000 --> 00:00:07,250\nhello\n\n" := by
  simp only [generate_srt, generate_srt_loop, srt_block, Option.getD_some,
    timedelta_five, timedelta_29_4, srt_timestamp_eq]
  decide

/-- Claim C4: for every segment sequence, `Encode` produces one block per
segment whose sequence numbers start at 1 and increase by 1 with no gaps
in input order (the pairs produced by `List.enumFrom 1` are exactly
`(1, c₀), (2, c₁), …`), each block opening with its sequence number; and
`Encode` of the empty sequence is the empty string rather than an
error. -/
theorem claim_C4_sequence_numbers :
    generate_srt [] = "" ∧
    (∀ chunks : List Chunk,
      generate_srt chunks =
        concatStrings ((chunks.enumFrom 1).map fun p => srt_block p.1 p.2)) ∧
    ∀ (i : Nat) (c : Chunk), ∃ r, srt_block i c = Nat.repr i ++ "\n" ++ r := by
  refine ⟨rfl, generate_srt_eq_blocks, fun i c => ?_⟩
  exact ⟨srt_timestamp (timedelta_of_seconds (c.start_seconds.getD 0)) ++ " --> " ++
    srt_timestamp (timedelta_of_seconds (c.end_seconds.getD 0)) ++ "\n" ++
    pyStrip c.text ++ "\n\n", by simp [srt_block, String.append_assoc]⟩

/-- Claim C9: a `null`/missing `start` or `end` timestamp is treated as 0
when deriving the timestamp line — anywhere in the segment list, replacing
a missing bound by an explicit 0 leaves the encoder's output unchanged
(and no error is raised: the encoder is a total function). -/
theorem claim_C9_null_timestamp_is_zero :
    ∀ (l1 l2 : List Chunk) (s e : Option ℚ) (t : String),
      generate_srt (l1 ++ ⟨none, e, t⟩ :: l2) =
        generate_srt (l1 ++ ⟨some 0, e, t⟩ :: l2) ∧
      generate_srt (l1 ++ ⟨s, none, t⟩ :: l2) =
        generate_srt (l1 ++ ⟨s, some 0, t⟩ :: l2) := by
  intro l1 l2 s e t
  constructor
  · exact generate_srt_loop_congr_mid ⟨none, e, t⟩ ⟨some 0, e, t⟩ (fun i => rfl) l1 l2 1
  · exact generate_srt_loop_congr_mid ⟨s, none, t⟩ ⟨s, some 0, t⟩ (fun i => rfl) l1 l2 1

/-- Claim C10: `Encode` is total over its segment input and performs no
validation: any segment — including one whose `end` precedes its `start`
or whose timestamps are negative — is encoded in place as a block, with
the out-of-range values formatted as-is (the concrete case shows the
negative timestamps `-1.5` and `-2.0` rendered by the same field
arithmetic), and the output is always the concatenation of one block per
segment. -/
theorem claim_C10_no_validation :
    (∀ (s e : ℚ) (t : String) (rest : List Chunk),
      generate_srt (⟨some s, some e, t⟩ :: rest) =
        srt_block 1 ⟨some s, some e, t⟩ ++ generate_srt_loop 2 rest) ∧
    (∀ chunks : List Chunk,
      ((chunks.enumFrom 1).map fun p => srt_block p.1 p.2).length = chunks.length ∧
      generate_srt chunks =
        concatStrings ((chunks.enumFrom 1).map fun p => srt_block p.1 p.2)) ∧
    generate_srt [⟨some (-3/2), some (-2), "x"⟩] =
      "1\n-1:59:58,500 --> -1:59:58,000\nx\n\n" := by
  refine ⟨fun s e t rest => rfl,
    fun chunks => ⟨by simp, generate_srt_eq_blocks chunks⟩, ?_⟩
  simp only [generate_srt, generate_srt_loop, srt_block, Option.getD_some,
    timedelta_neg32, timedelta_neg2, srt_timestamp_eq]
  decide

theorem floor_cast_div_thousand (m : ℤ) : ⌊(m : ℚ) / 1000⌋ = m / 1000 := by
  have := Rat.floor_intCast_div_natCast m 1000
  push_cast at this
  convert this using 2

theorem pyFormat0d_nonneg (w : Nat) (n : ℤ) (h : 0 ≤ n) :
    pyFormat0d w n = zfill w (Nat.repr n.natAbs) := by
  unfold pyFormat0d
  rw [if_neg (not_lt.mpr h)]

theorem timedelta_of_seconds_nonneg (q : ℚ) (h : 0 ≤ q) :
    0 ≤ timedelta_of_seconds q := by
  unfold timedelta_of_seconds roundHalfEven
  have h6 : (0:ℚ) ≤ q * 1000000 := by positivity
  have hf : (0:ℤ) ≤ ⌊q * 1000000⌋ := Int.floor_nonneg.mpr h6
  dsimp only
  split_ifs <;> omega

theorem srt_timestamp_fields (m : ℤ) (hm : 0 ≤ m) :
    ∃ H M S MS : ℕ,
      srt_timestamp m =
        zfill 2 (Nat.repr H) ++ ":" ++ zfill 2 (Nat.repr M) ++ ":" ++
        zfill 2 (Nat.repr S) ++ "," ++ zfill 3 (Nat.repr MS) ∧
      M < 60 ∧ S < 60 ∧ MS < 1000 ∧
      (MS : ℤ) = ⌊((timedelta_microseconds m : ℤ) : ℚ) / 1000000 * 1000⌋ := by
  have h1 : Int.fdiv (m / 1000000) 3600 = (m / 1000000) / 3600 :=
    Int.fdiv_eq_ediv _ (by norm_num)
  have h2 : Int.fmod (m / 60000000) 60 = (m / 60000000) % 60 :=
    Int.fmod_eq_emod _ (by norm_num)
  have h4 : Int.fmod m 1000000 = m % 1000000 := Int.fmod_eq_emod _ (by norm_num)
  have h5 : Int.fdiv (m % 1000000) 1000 = (m % 1000000) / 1000 :=
    Int.fdiv_eq_ediv _ (by norm_num)
  refine ⟨((m / 1000000) / 3600).natAbs, ((m / 60000000) % 60).natAbs,
    ((m / 1000000) % 60).natAbs, ((m % 1000000) / 1000).natAbs, ?_, ?_, ?_, ?_, ?_⟩
  · rw [srt_timestamp_eq, if_neg (not_lt.mpr hm), h1, h4, h5,
      pyFormat0d_nonneg _ _ (by omega), pyFormat0d_nonneg _ _ (by omega),
      pyFormat0d_nonneg _ _ (by omega), pyFormat0d_nonneg _ _ (by omega)]
    rw [h2]
  · omega
  · omega
  · omega
  · have hq : ((m % 1000000 : ℤ) : ℚ) / 1000000 * 1000 = ((m % 1000000 : ℤ) : ℚ) / 1000 := by
      ring
    unfold timedelta_microseconds
    rw [h4, hq, floor_cast_div_thousand]
    omega

/-- Claim C3: for every segment bound (a nonnegative number of seconds),
the emitted timestamp consists of hours, minutes and seconds fields
zero-padded to 2 digits and a milliseconds field zero-padded to 3 digits,
the minutes/seconds fields below 60 and the milliseconds field below
1000, with the milliseconds computed by truncation (floor, not rounding)
of the timedelta's fractional-seconds component times 1000; in
particular, for a segment starting at 3661.0 seconds the timestamp is
`01:01:01,000`, whose hour field is the string `01` (so in the
two-segment encoding with starts 0 and 3661.0 the second timestamp's
hour field is `01`). -/
theorem claim_C3_timestamp_field_format :
    (∀ q : ℚ, 0 ≤ q →
      ∃ H M S MS : ℕ,
        srt_timestamp (timedelta_of_seconds q) =
          zfill 2 (Nat.repr H) ++ ":" ++ zfill 2 (Nat.repr M) ++ ":" ++
          zfill 2 (Nat.repr S) ++ "," ++ zfill 3 (Nat.repr MS) ∧
        M < 60 ∧ S < 60 ∧ MS < 1000 ∧
        (MS : ℤ) =
          ⌊((timedelta_microseconds (timedelta_of_seconds q) : ℤ) : ℚ) / 1000000 * 1000⌋) ∧
    srt_timestamp (timedelta_of_seconds 3661) = "01:01:01,000" ∧
    generate_srt [⟨some 0, some 0, ""⟩, ⟨some 3661, some 3661, ""⟩] =
      "1\n00:00:00,000 --> 00:00:00,000\n\n\n2\n01:01:01,000 --> 01:01:01,000\n\n\n" := by
  refine ⟨fun q hq => srt_timestamp_fields _ (timedelta_of_seconds_nonneg q hq), ?_, ?_⟩
  · rw [timedelta_3661, srt_timestamp_eq]
    decide
  · simp only [generate_srt, generate_srt_loop, srt_block, Option.getD_some,
      timedelta_zero, timedelta_3661, srt_timestamp_eq]
    decide

/-- Witness for claim C3 at the concrete bound 7.25 seconds. -/
theorem claim_C3_timestamp_field_format_witness :
    ∃ H M S MS : ℕ,
      srt_timestamp (timedelta_of_seconds (29/4)) =
        zfill 2 (Nat.repr H) ++ ":" ++ zfill 2 (Nat.repr M) ++ ":" ++
        zfill 2 (Nat.repr S) ++ "," ++ zfill 3 (Nat.repr MS) ∧
      M < 60 ∧ S < 60 ∧ MS < 1000 ∧
      (MS : ℤ) =
        ⌊((timedelta_microseconds (timedelta_of_seconds (29/4)) : ℤ) : ℚ) / 1000000 * 1000⌋ :=
  claim_C3_timestamp_field_format.1 (29/4) (by norm_num)

/-! ### The task store and the service endpoints -/

/-- One entry of the in-memory `tasks` dictionary (main.py line 18): the
`'status'` value and, when the `'result'` key has been inserted, the
stored SRT text. -/
structure TaskRecord where
  status : String
  result : Option String

/-- The `tasks` dictionary: task id to task record. -/
def TaskMap : Type := String → Option TaskRecord

/-- Mutation of one entry of the `tasks` dictionary, as done by
`tasks[task_id]['status'] = ...` or `tasks[task_id]['result'] = ...`
(the entry is present in every reachable use; an absent id is left
unchanged). -/
def dict_update (tasks : TaskMap) (task_id : String) (f : TaskRecord → TaskRecord) : TaskMap :=
  fun k => if k = task_id then (tasks k).map f else tasks k

/-- The write `tasks[task_id]['status'] = s`. -/
def set_status (s : String) (t : TaskRecord) : TaskRecord := { t with status := s }

/-- The write `tasks[task_id]['result'] = r` (inserts the `'result'`
key). -/
def set_result (r : String) (t : TaskRecord) : TaskRecord := { t with result := some r }

/-- An uploaded file as seen through `request.files['audio']`. -/
structure UploadedFile where
  filename : String

/-- The request data the two submission endpoints read: presence of
`request.files['audio']` and the raw `language` form field
(`none` when the form has no such key, `some ""` when it is present but
empty). -/
structure Request where
  files_audio : Option UploadedFile
  form_language : Option String

/-- The expression `request.form.get('language', 'en')` of main.py lines
106 and 160: the default applies only when the key is absent. -/
def form_get_language (form_language : Option String) : String :=
  form_language.getD "en"

/-- Result of `os.remove(audio_path)`: `ok` normally, an `OSError`
carried as `Except.error` when deletion fails. -/
def os_remove (succeeds : Bool) : Except String Unit :=
  if succeeds then Except.ok () else Except.error "OSError"

/-- The body of `process_audio_task` (main.py lines 69-87) after
`generate_srt` has returned `srt_result`, as a function from the `tasks`
dictionary to its final value: on `some r` it sets status `'completed'`
then stores the result; on `none` it sets status `'failed'`; afterwards
it attempts `os.remove`, and a failure is caught by the
`except OSError` handler (only printed), leaving the dictionary as it
was. -/
def process_audio_task (tasks : TaskMap) (task_id : String)
    (srt_result : Option String) (remove_ok : Bool) : TaskMap :=
  let tasks1 : TaskMap :=
    match srt_result with
    | some r =>
        dict_update (dict_update tasks task_id (set_status "completed")) task_id (set_result r)
    | none => dict_update tasks task_id (set_status "failed")
  match os_remove remove_ok with
  | Except.ok _ => tasks1
  | Except.error _ => tasks1

/-- Program counter of the background thread running
`process_audio_task`, at statement granularity around the two dictionary
writes of the success branch. -/
inductive RunnerPC
  /-- About to execute line 77 (or line 81 on the failure branch). -/
  | start
  /-- Between line 77 (`tasks[task_id]['status'] = 'completed'`) and
  line 78 (`tasks[task_id]['result'] = srt_result`). -/
  | midCompleted
  /-- Terminal writes finished. -/
  | done

/-- One atomic step of the background thread for task `task_id` whose
`generate_srt` call returned `srt_result`: each Python assignment
statement executes atomically (GIL), but the poll endpoint may run
between two statements. -/
inductive runnerStep (task_id : String) (srt_result : Option String) :
    RunnerPC × TaskMap → RunnerPC × TaskMap → Prop
  /-- Line 77: `tasks[task_id]['status'] = 'completed'`. -/
  | write_status_completed (r : String) (tasks : TaskMap) :
      srt_result = some r →
      runnerStep task_id srt_result (RunnerPC.start, tasks)
        (RunnerPC.midCompleted, dict_update tasks task_id (set_status "completed"))
  /-- Line 78: `tasks[task_id]['result'] = srt_result`. -/
  | write_result (r : String) (tasks : TaskMap) :
      srt_result = some r →
      runnerStep task_id srt_result (RunnerPC.midCompleted, tasks)
        (RunnerPC.done, dict_update tasks task_id (set_result r))
  /-- Line 81: `tasks[task_id]['status'] = 'failed'`. -/
  | write_status_failed (tasks : TaskMap) :
      srt_result = none →
      runnerStep task_id srt_result (RunnerPC.start, tasks)
        (RunnerPC.done, dict_update tasks task_id (set_status "failed"))

/-- The `tasks` dictionary right after `submit_task` inserted
`tasks[task_id] = ⟨'processing'⟩` (main.py line 114): the submitted id
maps to a pending record with no `'result'` key. -/
def init_tasks (task_id : String) : TaskMap :=
  fun k => if k = task_id then some ⟨"processing", none⟩ else none

/-- Response of the poll endpoint `get_task_result` (main.py lines
122-144). -/
inductive PollResponse
  /-- 404: `Task not found`. -/
  | notFound
  /-- 200: `send_file` of the SRT text as attachment `task_id.srt`. -/
  | fileDownload (srt : String) (download_name : String)
  /-- 500: `status failed, Transcription failed.`. -/
  | failed
  /-- 200: `jsonify(status=...)` for a not-yet-terminal task. -/
  | statusOnly (status : String)
  /-- Uncaught `KeyError`: line 133 evaluates `task['result']` on a dict
  with no `'result'` key. -/
  | keyError

/-- The poll endpoint `get_task_result` (main.py lines 122-144): look up
the task; on `'completed'` read `task['result']` (which raises `KeyError`
when the key is absent) and send the file; on `'failed'` report failure;
otherwise report the current status. -/
def get_task_result (tasks : TaskMap) (task_id : String) : PollResponse :=
  match tasks task_id with
  | none => PollResponse.notFound
  | some task =>
    if task.status = "completed" then
      match task.result with
      | some r => PollResponse.fileDownload r (task_id ++ ".srt")
      | none => PollResponse.keyError
    else if task.status = "failed" then PollResponse.failed
    else PollResponse.statusOnly task.status

/-- Response of `submit_task` (main.py lines 91-120). -/
inductive SubmitResponse
  /-- 400: `jsonify(error=...)`. -/
  | badRequest (error : String)
  /-- 200: `jsonify(task_id=...)`. -/
  | accepted (task_id : String)

/-- Arguments handed to the spawned background thread (main.py line
117): `Thread(target=process_audio_task, args=(task_id, audio_path,
audio_file.filename, language))`. -/
structure RunnerArgs where
  task_id : String
  audio_path : String
  file_name : String
  language : String

/-- Outcome of `submit_task`: the HTTP response, the `tasks` dictionary
after the endpoint returns, and the arguments of the spawned thread
(none when no thread was started). -/
structure SubmitOutcome where
  response : SubmitResponse
  tasks : TaskMap
  spawned : Option RunnerArgs

/-- The submission endpoint `submit_task` (main.py lines 91-120): reject
a request with no `'audio'` file or an empty filename with a 400 error
before any task is created; otherwise read the language (default `'en'`
only when the form key is absent), save the upload under a fresh
`task_id`, insert a `'processing'` record, and spawn the background
thread.  The fresh `uuid4` is supplied as `task_id`; the file-extension
splitting of line 109 is elided (no claim concerns the stored path). -/
def submit_task (tasks : TaskMap) (req : Request) (task_id : String) : SubmitOutcome :=
  match req.files_audio with
  | none => ⟨SubmitResponse.badRequest "No audio file provided", tasks, none⟩
  | some audio_file =>
    if audio_file.filename = "" then
      ⟨SubmitResponse.badRequest "No selected file", tasks, none⟩
    else
      let language := form_get_language req.form_language
      let audio_path := "uploads/" ++ task_id
      ⟨SubmitResponse.accepted task_id,
        fun k => if k = task_id then some ⟨"processing", none⟩ else tasks k,
        some ⟨task_id, audio_path, audio_file.filename, language⟩⟩

/-- Response of `transcribe_directly` (main.py lines 146-174). -/
inductive TranscribeResponse
  /-- 400: `jsonify(error=...)`. -/
  | badRequest (error : String)
  /-- 200: the SRT content with a plain-text content type. -/
  | srtContent (srt : String)
  /-- 500: `Failed to transcribe audio`. -/
  | transcribeFailed

/-- The synchronous endpoint `transcribe_directly` (main.py lines
146-174), parametrised by the transcription pipeline (audio path and
language to chunks, `none` when the pipeline raises inside
`generate_srt`): after validation it saves the upload, runs
`generate_srt`, then executes the bare `os.remove(audio_path)` of line
169 — which is NOT wrapped in `try`/`except`, so a deletion failure
propagates as an uncaught `OSError` (`Except.error`) and the computed
SRT result is lost. -/
def transcribe_directly (pipe : String → String → Option (List Chunk))
    (req : Request) (tmp_id : String) (remove_ok : Bool) :
    Except String TranscribeResponse :=
  match req.files_audio with
  | none => Except.ok (TranscribeResponse.badRequest "No audio file provided")
  | some audio_file =>
    if audio_file.filename = "" then
      Except.ok (TranscribeResponse.badRequest "No selected file")
    else
      let language := form_get_language req.form_language
      let audio_path := "uploads/" ++ tmp_id
      let srt_result := generate_srt_of_output (pipe audio_path language)
      match os_remove remove_ok with
      | Except.error e => Except.error e
      | Except.ok _ =>
        match srt_result with
        | some s => Except.ok (TranscribeResponse.srtContent s)
        | none => Except.ok TranscribeResponse.transcribeFailed

/-- The `tasks` dictionary in the torn window: line 77 has executed
(status `'completed'`) but line 78 (storing the result) has not. -/
def torn_tasks : TaskMap := dict_update (init_tasks "t1") "t1" (set_status "completed")

/-- Claim C1 (refuted; the code is at fault): the completion write is NOT
atomic with respect to readers.  Starting from the store right after
submission, one atomic step of the background thread (line 77 alone)
reaches a state in which the task's status is `'completed'` while its
result is absent, and polling in that state evaluates `task['result']`
on a dict without the key — an uncaught `KeyError` instead of a
snapshot. -/
theorem claim_C1_completion_write_not_atomic :
    Relation.ReflTransGen (runnerStep "t1" (some "SRT"))
      (RunnerPC.start, init_tasks "t1") (RunnerPC.midCompleted, torn_tasks) ∧
    torn_tasks "t1" = some ⟨"completed", none⟩ ∧
    get_task_result torn_tasks "t1" = PollResponse.keyError :=
  ⟨Relation.ReflTransGen.single (runnerStep.write_status_completed "SRT" _ rfl), rfl, rfl⟩

/-- Claim C8: a submission with no audio payload or with an empty
filename is rejected with a 400 error immediately, the `tasks`
dictionary is unchanged, and no background thread is spawned. -/
theorem claim_C8_invalid_submission (tasks : TaskMap) (req : Request) (task_id : String)
    (h : req.files_audio = none ∨ ∃ f, req.files_audio = some f ∧ f.filename = "") :
    (submit_task tasks req task_id).tasks = tasks ∧
    (submit_task tasks req task_id).spawned = none ∧
    ∃ msg, (submit_task tasks req task_id).response = SubmitResponse.badRequest msg := by
  rcases h with h | ⟨f, hf, hname⟩
  · simp only [submit_task, h]
    exact ⟨trivial, trivial, "No audio file provided", by simp⟩
  · simp only [submit_task, hf, hname, if_pos]
    exact ⟨trivial, trivial, "No selected file", by simp⟩

/-- Witness for claim C8: a request with no audio payload. -/
theorem claim_C8_invalid_submission_witness :
    (submit_task (fun _ => none) ⟨none, none⟩ "t1").tasks = (fun _ => none) ∧
    (submit_task (fun _ => none) ⟨none, none⟩ "t1").spawned = none ∧
    ∃ msg, (submit_task (fun _ => none) ⟨none, none⟩ "t1").response
      = SubmitResponse.badRequest msg :=
  claim_C8_invalid_submission (fun _ => none) ⟨none, none⟩ "t1" (Or.inl rfl)

/-- Counterexample to claim C5: a language hint that is present but
empty is NOT replaced by the default.  `request.form.get('language',
'en')` returns the empty string when the form field exists and is empty,
so the background thread is spawned with language `""`, and the
synchronous pipeline is likewise invoked with `""` (the probe pipeline
echoes its language argument into the chunk text, and the output is the
encoding of the empty echo, not of `"en"`). -/
theorem claim_C5_counterexample :
    form_get_language (some "") = "" ∧
    ¬ form_get_language (some "") = "en" ∧
    (submit_task (fun _ => none) ⟨some ⟨"a.mp3"⟩, some ""⟩ "t1").spawned =
      some ⟨"t1", "uploads/" ++ "t1", "a.mp3", ""⟩ ∧
    transcribe_directly (fun _ lang => some [⟨some 0, some 0, lang⟩])
        ⟨some ⟨"a.mp3"⟩, some ""⟩ "u1" true =
      Except.ok (TranscribeResponse.srtContent (generate_srt [⟨some 0, some 0, ""⟩])) ∧
    ¬ generate_srt [⟨some 0, some 0, ""⟩] = generate_srt [⟨some 0, some 0, "en"⟩] := by
  refine ⟨rfl, by decide, rfl, rfl, ?_⟩
  simp only [generate_srt, generate_srt_loop, srt_block, Option.getD_some,
    timedelta_zero, srt_timestamp_eq]
  decide

/-- Claim C5 as amended: only an ABSENT language hint is replaced by the
fixed default `'en'` before invoking the transcriber — in the
asynchronous submission the spawned thread receives language `'en'`, and
in the synchronous endpoint the pipeline is invoked with `'en'`; a
present-but-empty hint is passed through unchanged (see the
counterexample). -/
theorem claim_C5_default_language_when_absent (tasks : TaskMap) (f : UploadedFile)
    (task_id tmp_id : String) (pipe : String → String → Option (List Chunk))
    (remove_ok : Bool) (hname : ¬ f.filename = "") :
    (∃ a : RunnerArgs,
      (submit_task tasks ⟨some f, none⟩ task_id).spawned = some a ∧ a.language = "en") ∧
    transcribe_directly pipe ⟨some f, none⟩ tmp_id remove_ok =
      transcribe_directly (fun p _ => pipe p "en") ⟨some f, none⟩ tmp_id remove_ok := by
  constructor
  · refine ⟨⟨task_id, "uploads/" ++ task_id, f.filename, "en"⟩, ?_, rfl⟩
    simp [submit_task, hname, form_get_language]
  · simp [transcribe_directly, hname, form_get_language]

/-- Witness for claim C5 as amended: concrete submission with no
language field. -/
theorem claim_C5_default_language_when_absent_witness :
    (∃ a : RunnerArgs,
      (submit_task (fun _ => none) ⟨some ⟨"a.mp3"⟩, none⟩ "t1").spawned = some a ∧
        a.language = "en") ∧
    transcribe_directly (fun _ _ => none) ⟨some ⟨"a.mp3"⟩, none⟩ "u1" true =
      transcribe_directly (fun p _ => (fun _ _ => (none : Option (List Chunk))) p "en")
        ⟨some ⟨"a.mp3"⟩, none⟩ "u1" true :=
  claim_C5_default_language_when_absent (fun _ => none) ⟨"a.mp3"⟩ "t1" "u1"
    (fun _ _ => none) true (by decide)

/-- Claim C6 (the asynchronous half holds, the synchronous half is
refuted; the code is at fault): in `process_audio_task` a failing
`os.remove` is caught and only logged — the final `tasks` dictionary is
identical whether or not deletion succeeds, and a completed task keeps
status `'completed'` with its stored result — but in
`transcribe_directly` the bare `os.remove` of line 169 is not wrapped in
`try`/`except`, so when deletion fails the `OSError` propagates to the
caller and the successfully computed SRT text is lost. -/
theorem claim_C6_cleanup_failure_only_logged :
    (∀ (tasks : TaskMap) (task_id : String) (srt_result : Option String) (ok : Bool),
      process_audio_task tasks task_id srt_result ok =
        process_audio_task tasks task_id srt_result true) ∧
    process_audio_task (init_tasks "t1") "t1" (some "SRT") false "t1" =
      some ⟨"completed", some "SRT"⟩ ∧
    process_audio_task (init_tasks "t1") "t1" none false "t1" =
      some ⟨"failed", none⟩ ∧
    transcribe_directly (fun _ _ => some [⟨some 0, some 1, "hi"⟩])
        ⟨some ⟨"a.mp3"⟩, none⟩ "u1" false = Except.error "OSError" := by
  refine ⟨fun tasks task_id srt_result ok => ?_, rfl, rfl, rfl⟩
  cases ok <;> rfl

/-- Characterisation of the states reachable by the background thread
from the store as created by submission: exactly the initial state, the
torn mid-completion state, the completed state, and the failed state. -/
theorem runner_reachable_cases (task_id : String) (res : Option String)
    (s : RunnerPC × TaskMap)
    (h : Relation.ReflTransGen (runnerStep task_id res)
      (RunnerPC.start, init_tasks task_id) s) :
    s = (RunnerPC.start, init_tasks task_id) ∨
    (∃ r, res = some r ∧ s = (RunnerPC.midCompleted,
      dict_update (init_tasks task_id) task_id (set_status "completed"))) ∨
    (∃ r, res = some r ∧ s = (RunnerPC.done,
      dict_update (dict_update (init_tasks task_id) task_id (set_status "completed"))
        task_id (set_result r))) ∨
    (res = none ∧ s = (RunnerPC.done,
      dict_update (init_tasks task_id) task_id (set_status "failed"))) := by
  induction h with
  | refl => exact Or.inl rfl
  | tail hsteps step ih =>
    rcases ih with h1 | ⟨r, hr, h2⟩ | ⟨r, hr, h3⟩ | ⟨hr, h4⟩
    · subst h1
      cases step with
      | write_status_completed r' m hsome => exact Or.inr (Or.inl ⟨r', hsome, rfl⟩)
      | write_status_failed m hnone => exact Or.inr (Or.inr (Or.inr ⟨hnone, rfl⟩))
    · subst h2
      cases step with
      | write_result r' m hsome =>
        refine Or.inr (Or.inr (Or.inl ⟨r', hsome, ?_⟩))
        rfl
    · subst h3
      cases step
    · subst h4
      cases step

/-- Counterexample to claim C7: the state reached after line 77 alone
(one atomic step of the success branch) is a reachable store state whose
task has status `'completed'` and no result value, violating the
`result ⇔ Completed` biconditional. -/
theorem claim_C7_counterexample :
    Relation.ReflTransGen (runnerStep "t1" (some "SRT"))
      (RunnerPC.start, init_tasks "t1") (RunnerPC.midCompleted, torn_tasks) ∧
    ∃ t : TaskRecord, torn_tasks "t1" = some t ∧
      t.status = "completed" ∧ t.result = none :=
  ⟨Relation.ReflTransGen.single (runnerStep.write_status_completed "SRT" _ rfl),
    ⟨"completed", none⟩, rfl, rfl, rfl⟩

/-- Claim C7 as amended: in every reachable state of the store, a task
with a result value has status `'completed'`, and `'processing'`
(pending) and `'failed'` tasks never carry a result; a `'completed'`
task carries its result in every reachable state EXCEPT the transient
window between the two completion writes (lines 77 and 78), where the
status is already `'completed'` but the result is still absent. -/
theorem claim_C7_result_iff_completed (task_id : String) (res : Option String)
    (pc : RunnerPC) (tasks : TaskMap)
    (h : Relation.ReflTransGen (runnerStep task_id res)
      (RunnerPC.start, init_tasks task_id) (pc, tasks)) (t : TaskRecord)
    (ht : tasks task_id = some t) :
    (t.result.isSome → t.status = "completed") ∧
    (t.status = "processing" → t.result = none) ∧
    (t.status = "failed" → t.result = none) ∧
    (pc ≠ RunnerPC.midCompleted → t.status = "completed" → t.result.isSome) := by
  rcases runner_reachable_cases task_id res (pc, tasks) h with
    h1 | ⟨r, hr, h2⟩ | ⟨r, hr, h3⟩ | ⟨hr, h4⟩
  · injection h1 with hpc htasks
    subst hpc htasks
    simp only [init_tasks, if_pos] at ht
    have : t = ⟨"processing", none⟩ := by
      simp at ht
      exact ht.symm
    subst this
    refine ⟨by simp, fun _ => rfl, fun _ => rfl, fun _ hc => absurd hc (by decide)⟩
  · injection h2 with hpc htasks
    subst hpc htasks
    have : t = ⟨"completed", none⟩ := by
      simp [dict_update, init_tasks, set_status] at ht
      exact ht.symm
    subst this
    exact ⟨by simp, fun hp => absurd hp (by decide), fun hp => absurd hp (by decide),
      fun hpc => absurd rfl hpc⟩
  · injection h3 with hpc htasks
    subst hpc htasks
    have : t = ⟨"completed", some r⟩ := by
      simp [dict_update, init_tasks, set_status, set_result] at ht
      exact ht.symm
    subst this
    exact ⟨fun _ => rfl, fun hp => by simp at hp, fun hp => by simp at hp,
      fun _ _ => rfl⟩
  · injection h4 with hpc htasks
    subst hpc htasks
    have : t = ⟨"failed", none⟩ := by
      simp [dict_update, init_tasks, set_status] at ht
      exact ht.symm
    subst this
    exact ⟨by simp, fun hp => absurd hp (by decide), fun _ => rfl,
      fun _ hc => absurd hc (by decide)⟩

/-- Witness for claim C7 as amended: the freshly submitted store. -/
theorem claim_C7_result_iff_completed_witness :
    ((⟨"processing", none⟩ : TaskRecord).result.isSome →
      (⟨"processing", none⟩ : TaskRecord).status = "completed") ∧
    ((⟨"processing", none⟩ : TaskRecord).status = "processing" →
      (⟨"processing", none⟩ : TaskRecord).result = none) ∧
    ((⟨"processing", none⟩ : TaskRecord).status = "failed" →
      (⟨"processing", none⟩ : TaskRecord).result = none) ∧
    (RunnerPC.start ≠ RunnerPC.midCompleted →
      (⟨"processing", none⟩ : TaskRecord).status = "completed" →
      (⟨"processing", none⟩ : TaskRecord).result.isSome) :=
  claim_C7_result_iff_completed "t1" none RunnerPC.start (init_tasks "t1")
    Relation.ReflTransGen.refl ⟨"processing", none⟩ rfl
